import Mathlib

/-!
Verification of the FFI-safety core of the `onnxruntime` Rust wrapper:
the environment manager (`src/environment.rs`) and the borrowed-output
tensor adapter (`src/tensor/ort_output_tensor.rs`).

The native ONNX Runtime C API is modelled as an oracle: each entry point
is a function from the arguments the Rust side passes to the status code
and out-parameters the native side returns.  Native status codes are
`Option Nat` with `none` meaning success, mirroring the null/non-null
`OrtStatus` pointer.  Rust `Arc` reference counting and `Drop` glue are
made explicit as state-passing functions on a process state.
-/

namespace Onnx

/-- A native status: `none` is the null (success) status, `some e` a
non-success status carrying an error payload. -/
abbrev OrtStatus := Option Nat

/-- Modelled from the spec: `error.rs` is not under `src/`.  The spec's
error taxonomy lists four kinds: environment-creation failure
(`OrtError::Environment`), tensor-predicate call failure
(`OrtError::IsTensor`), predicate-false (`OrtError::IsTensorCheck`), and
data-access failure (`DataAccess`, the spec's `DataAccessError`).  The
first three names are the variants `environment.rs` and
`ort_output_tensor.rs` apply. -/
inductive OrtError where
  | Environment (e : Nat)
  | IsTensor (e : Nat)
  | IsTensorCheck
  | DataAccess (e : Nat)
deriving DecidableEq, Repr

/-- Whether an error is of the data-access kind of the spec's taxonomy. -/
def OrtError.isDataAccess : OrtError → Bool
  | .DataAccess _ => true
  | _ => false

/-- Modelled from the spec: `status_to_result` lives in `error.rs`, which is
not under `src/`; per the spec each native entry point returns "a
status/result code convertible to success-or-error". -/
def status_to_result (s : OrtStatus) : Except Nat Unit :=
  match s with
  | none => Except.ok ()
  | some e => Except.error e

/-- Modelled from the spec: `LoggingLevel` lives in `lib.rs`, which is not
under `src/`; the sources under `src/` use the `Warning` and `Verbose`
levels and pass the level only to the native creation call. -/
inductive LoggingLevel where
  | Verbose
  | Info
  | Warning
  | Error
  | Fatal
deriving DecidableEq, Repr

/-- The observable state of the native library's environment bookkeeping:
the live singleton environment pointer (the repository's tests assert that
repeated creation calls return the identical pointer), a fresh-pointer
source, the number of times the create entry point was invoked, and the
pointers passed to `ReleaseEnv`, in order. -/
structure NativeEnvState where
  env : Option Nat
  nextPtr : Nat
  createCalls : Nat
  releases : List Nat
deriving DecidableEq, Repr

/-- Native state at process start: no environment, no calls yet.  Pointer
values start at 1 so that 0 stands for the null pointer. -/
def NativeEnvState.init : NativeEnvState :=
  { env := none, nextPtr := 1, createCalls := 0, releases := [] }

/-- The native `CreateEnvWithCustomLogger` entry point.  Every invocation
counts.  `status` is the native side's chosen outcome for this call; on
success the native library hands back its process-wide singleton
environment pointer, creating it on first use (the behaviour the
repository's tests `sequential_environment_creation` and
`concurrent_environment_creations` assert).  The name and log level only
configure the native logger; they do not affect the returned pointer. -/
def createEnvWithCustomLogger (_logLevel : LoggingLevel) (_name : String)
    (status : OrtStatus) (st : NativeEnvState) : Except Nat Nat × NativeEnvState :=
  let st := { st with createCalls := st.createCalls + 1 }
  match status_to_result status with
  | Except.error e => (Except.error e, st)
  | Except.ok _ =>
    match st.env with
    | some p => (Except.ok p, st)
    | none =>
      (Except.ok st.nextPtr,
        { st with env := some st.nextPtr, nextPtr := st.nextPtr + 1 })

/-- The native `ReleaseEnv` entry point: records the released pointer. -/
def releaseEnv (p : Nat) (st : NativeEnvState) : NativeEnvState :=
  { st with releases := st.releases ++ [p] }

/-- The payload of one `Arc<_Environment>`: the strong count together with
the `_Environment` fields `name` (a `CString`, modelled as `String`) and
`env_ptr`. -/
structure ArcCell where
  count : Nat
  name : String
  env_ptr : Nat
deriving DecidableEq, Repr

/-- Process state: the native library state plus a heap of `Arc` cells.
An `Environment` value is an index into `arcs`; `none` marks a freed
cell. -/
structure ProcState where
  native : NativeEnvState
  arcs : List (Option ArcCell)
deriving DecidableEq, Repr

/-- Process state at start: fresh native state, no arcs. -/
def ProcState.init : ProcState :=
  { native := NativeEnvState.init, arcs := [] }

/-- Allocate a fresh `Arc` cell, returning its index. -/
def allocArc (c : ArcCell) (st : ProcState) : Nat × ProcState :=
  (st.arcs.length, { st with arcs := st.arcs ++ [some c] })

/-- Look up an `Arc` cell by index. -/
def getArc (st : ProcState) (id : Nat) : Option ArcCell :=
  st.arcs.getD id none

/-- Replace an `Arc` cell. -/
def setArc (st : ProcState) (id : Nat) (v : Option ArcCell) : ProcState :=
  { st with arcs := st.arcs.set id v }

/-- `Environment::new` from `environment.rs` lines 84-121: invoke the
native creation entry point; on a non-success status fail with
`OrtError::Environment`; on success wrap the returned pointer and the
requested name in a fresh `Arc<_Environment>` with strong count 1.  There
is no initialization guard: `new` runs the native call unconditionally. -/
def Environment.new (name : String) (log_level : LoggingLevel)
    (status : OrtStatus) (st : ProcState) : Except OrtError Nat × ProcState :=
  match createEnvWithCustomLogger log_level name status st.native with
  | (Except.error e, n) =>
      (Except.error (OrtError.Environment e), { st with native := n })
  | (Except.ok p, n) =>
      let st1 : ProcState := { st with native := n }
      let a := allocArc { count := 1, name := name, env_ptr := p } st1
      (Except.ok a.1, a.2)

/-- `Clone` for `Environment`: cloning the handle clones the `Arc`,
incrementing the strong count of the shared cell. -/
def Environment.clone (id : Nat) (st : ProcState) : ProcState :=
  match getArc st id with
  | some c => setArc st id (some { c with count := c.count + 1 })
  | none => st

/-- Dropping an `Environment` handle: decrement the `Arc` strong count;
when the last reference goes, `Drop for _Environment` (lines 25-30) runs
and calls the native `ReleaseEnv` on the stored pointer. -/
def Environment.drop (id : Nat) (st : ProcState) : ProcState :=
  match getArc st id with
  | some c =>
    if c.count ≤ 1 then
      let st1 := setArc st id none
      { st1 with native := releaseEnv c.env_ptr st1.native }
    else
      setArc st id (some { c with count := c.count - 1 })
  | none => st

/-- `Environment::name` (lines 73-77): returns the name stored in this
handle's own `_Environment`. -/
def Environment.name (st : ProcState) (id : Nat) : Option String :=
  (getArc st id).map ArcCell.name

/-- The `env_ptr` of the handle's `_Environment` (used by
`Environment::env()` and the tests). -/
def Environment.env_ptr (st : ProcState) (id : Nat) : Option Nat :=
  (getArc st id).map ArcCell.env_ptr

/-- `EnvBuilder` from `environment.rs` lines 138-141. -/
structure EnvBuilder where
  name : String
  log_level : LoggingLevel
deriving DecidableEq, Repr

/-- `Environment::builder` (lines 63-71): defaults are name `"default"`
and log level `Warning`. -/
def Environment.builder : EnvBuilder :=
  { name := "default", log_level := LoggingLevel.Warning }

/-- `EnvBuilder::with_name` (lines 150-156): overwrite the name. -/
def EnvBuilder.with_name (b : EnvBuilder) (name : String) : EnvBuilder :=
  { b with name := name }

/-- `EnvBuilder::with_log_level` (lines 164-168): overwrite the level. -/
def EnvBuilder.with_log_level (b : EnvBuilder) (l : LoggingLevel) : EnvBuilder :=
  { b with log_level := l }

/-- `EnvBuilder::build` (lines 171-173): delegate to `Environment::new`
with the builder's current name and level. -/
def EnvBuilder.build (b : EnvBuilder) (status : OrtStatus) (st : ProcState) :
    Except OrtError Nat × ProcState :=
  Environment.new b.name b.log_level status st

/-! ## Borrowed-output tensor adapter (`src/tensor/ort_output_tensor.rs`) -/

/-- The native tensor-facing entry points, modelled as an oracle keyed by
the value pointer the Rust side passes: `IsTensor` returns a status and
the `is_tensor` out-parameter, `GetTensorMutableData` returns a status and
the data pointer (0 standing for null). -/
structure OrtApi where
  isTensor : Nat → OrtStatus × Nat
  getTensorMutableData : Nat → OrtStatus × Nat

/-- The outcome of a Rust computation that may return a typed error or
abort via a failed assertion. -/
inductive RustResult (α : Type) where
  | ok (a : α)
  | err (e : OrtError)
  | panicked
deriving DecidableEq, Repr

/-- `OrtOutputTensor` (lines 16-20): the raw value pointer and the shape. -/
structure OrtOutputTensor where
  tensor_ptr : Nat
  shape : List Nat
deriving DecidableEq, Repr

/-- `OrtOwnedTensorExtractor` (lines 22-26). -/
structure OrtOwnedTensorExtractor where
  tensor_ptr : Nat
  shape : List Nat
deriving DecidableEq, Repr

/-- `OrtOwnedTensorExtractor::extract` (lines 36-53): assert the value
pointer is non-null, query the native `IsTensor` predicate, fail with
`OrtError::IsTensor` if the query itself errors, fail with
`OrtError::IsTensorCheck` if it succeeds but answers other than 1, and
otherwise return an `OrtOutputTensor` carrying the same pointer and
shape. -/
def OrtOwnedTensorExtractor.extract (api : OrtApi)
    (self : OrtOwnedTensorExtractor) : RustResult OrtOutputTensor :=
  if self.tensor_ptr = 0 then RustResult.panicked
  else
    let r := api.isTensor self.tensor_ptr
    match status_to_result r.1 with
    | Except.error e => RustResult.err (OrtError.IsTensor e)
    | Except.ok _ =>
      if r.2 = 1 then
        RustResult.ok { tensor_ptr := self.tensor_ptr, shape := self.shape }
      else
        RustResult.err OrtError.IsTensorCheck

/-- A flat slice view: `std::slice::from_raw_parts(ptr, len)` is the pair
of its data pointer and its length. -/
structure SliceView where
  ptr : Nat
  len : Nat
deriving DecidableEq, Repr

/-- An `ndarray::ArrayView` built by `ArrayView::from_shape_ptr`: the
shape it was keyed with and the data pointer. -/
structure ArrayViewD where
  shape : List Nat
  ptr : Nat
deriving DecidableEq, Repr

/-- `WithOutputTensor<T>` (lines 67-72): the adapter holding the
`OrtOutputTensor` together with the borrowed view `item`. -/
structure WithOutputTensor (T : Type) where
  tensor : OrtOutputTensor
  item : T
deriving DecidableEq, Repr

/-- `TryFrom<OrtOutputTensor> for WithOutputTensor<&[T]>` (lines 110-137):
fetch the data pointer via `GetTensorMutableData`; a non-success status is
mapped (by the code's own `map_err`) to `OrtError::IsTensor`; a null data
pointer trips `assert_ne!` and panics; otherwise build the flat view whose
length is `shape.iter().fold(1, |acc, el| acc * el)`. -/
def tryFromSlice (api : OrtApi) (value : OrtOutputTensor) :
    RustResult (WithOutputTensor SliceView) :=
  let r := api.getTensorMutableData value.tensor_ptr
  match status_to_result r.1 with
  | Except.error e => RustResult.err (OrtError.IsTensor e)
  | Except.ok _ =>
    if r.2 = 0 then RustResult.panicked
    else
      let length := value.shape.foldl (fun acc el => acc * el) 1
      RustResult.ok
        { tensor := value, item := { ptr := r.2, len := length } }

/-- `TryFrom<OrtOutputTensor> for WithOutputTensor<ArrayView>` (lines
82-108): same data fetch and error mapping; on success the view is
`ArrayView::from_shape_ptr(IxDyn(&value.shape), ptr)`, keyed by the
tensor's shape. -/
def tryFromArrayView (api : OrtApi) (value : OrtOutputTensor) :
    RustResult (WithOutputTensor ArrayViewD) :=
  let r := api.getTensorMutableData value.tensor_ptr
  match status_to_result r.1 with
  | Except.error e => RustResult.err (OrtError.IsTensor e)
  | Except.ok _ =>
    if r.2 = 0 then RustResult.panicked
    else
      RustResult.ok
        { tensor := value, item := { shape := value.shape, ptr := r.2 } }

/-! ## Helper lemmas -/

/-- Reading a just-appended element at the old length. -/
theorem list_getD_append_singleton {α : Type} (xs : List α) (b : α) (d : α) :
    (xs ++ [b]).getD xs.length d = b := by
  induction xs with
  | nil => rfl
  | cons x xs ih =>
    simp only [List.cons_append, List.length_cons, List.getD_cons_succ]
    exact ih

/-- A freshly allocated `Arc` cell is found at the returned index. -/
theorem getArc_alloc (c : ArcCell) (st : ProcState) :
    getArc (allocArc c st).2 (allocArc c st).1 = some c := by
  unfold getArc allocArc
  exact list_getD_append_singleton st.arcs (some c) none

/-! ## Environment scenarios

The concrete runs the repository's own tests perform: sequential `build`
calls with distinct names, all native statuses successful. -/

/-- First `build` call of the process, requesting the name `"first"`. -/
def buildFirst : Except OrtError Nat × ProcState :=
  EnvBuilder.build (Environment.builder.with_name "first") none ProcState.init

/-- Second `build` call, requesting the name `"second"`. -/
def buildSecond : Except OrtError Nat × ProcState :=
  EnvBuilder.build (Environment.builder.with_name "second") none buildFirst.2

/-- Both handles from the two builds dropped. -/
def twoBuildsDropped : ProcState :=
  Environment.drop 1 (Environment.drop 0 buildSecond.2)

/-- A single build whose handle is then cloned: two handles sharing one
`Arc<_Environment>`. -/
def oneBuildCloned : ProcState :=
  Environment.clone 0
    (EnvBuilder.build (Environment.builder.with_name "only") none ProcState.init).2

/-! ## Claim theorems: environment manager -/

/-- Claim C1: the claim says only the first `build` call invokes the
native create-environment entry point.  In the code every `build` call
runs `Environment::new`, which invokes `CreateEnvWithCustomLogger`
unconditionally: after two builds the entry point has been invoked twice,
and each build allocated its own handle (ids 0 and 1) rather than
returning a reference to the existing one.  The two handles do share the
identical native pointer, but only because the native library returns its
process-wide singleton. -/
theorem c1_every_build_calls_native_create :
    buildSecond.2.native.createCalls = 2
    ∧ buildFirst.1 = Except.ok 0
    ∧ buildSecond.1 = Except.ok 1
    ∧ Environment.env_ptr buildSecond.2 0 = some 1
    ∧ Environment.env_ptr buildSecond.2 1 = some 1 :=
  ⟨rfl, rfl, rfl, rfl, rfl⟩

/-- Claim C2: the claim says `name()` on a later handle returns the name
from the first successful creation call.  In the code each
`Environment::new` stores the caller's own `CString` in its own
`_Environment`, so the second handle's `name()` returns `"second"`, not
`"first"`. -/
theorem c2_name_is_per_handle :
    Environment.name buildSecond.2 1 = some "second"
    ∧ Environment.name buildSecond.2 0 = some "first"
    ∧ ("second" : String) ≠ "first" :=
  ⟨rfl, rfl, by decide⟩

/-- Claim C3: the claim says N handles referencing the same native
environment produce exactly one native release.  That holds for handles
sharing one `Arc` (clones): no release before the last drop, one release
after it.  But two handles from two `build` calls reference the same
native pointer 1 through two distinct `Arc<_Environment>` cells, and
dropping both calls `ReleaseEnv` twice on that pointer. -/
theorem c3_release_once_per_arc_not_per_pointer :
    (Environment.drop 0 oneBuildCloned).native.releases = []
    ∧ (Environment.drop 0 (Environment.drop 0 oneBuildCloned)).native.releases = [1]
    ∧ Environment.env_ptr buildSecond.2 0 = Environment.env_ptr buildSecond.2 1
    ∧ twoBuildsDropped.native.releases = [1, 1] :=
  ⟨rfl, rfl, rfl, rfl⟩

/-- Claim C7: `build` fails with `OrtError::Environment` exactly when the
native creation call reports a non-success status, and on success the
returned handle stores the pointer produced by that native call together
with the requested name. -/
theorem c7_build_error_and_success (b : EnvBuilder) (st : ProcState) (e : Nat) :
    (EnvBuilder.build b (some e) st).1 = Except.error (OrtError.Environment e)
    ∧ ∀ id st2, EnvBuilder.build b none st = (Except.ok id, st2) →
        ∃ p, (createEnvWithCustomLogger b.log_level b.name none st.native).1 = Except.ok p
          ∧ Environment.env_ptr st2 id = some p
          ∧ Environment.name st2 id = some b.name := by
  constructor
  · rfl
  · intro id st2 h
    unfold EnvBuilder.build Environment.new createEnvWithCustomLogger status_to_result at h
    cases henv : st.native.env with
    | some p =>
      rw [henv] at h
      dsimp at h
      rw [Prod.mk.injEq] at h
      obtain ⟨hid, hst⟩ := h
      cases hid
      refine ⟨p, ?_, ?_, ?_⟩
      · simp [createEnvWithCustomLogger, status_to_result, henv]
      · rw [← hst]
        unfold Environment.env_ptr
        rw [getArc_alloc]
        rfl
      · rw [← hst]
        unfold Environment.name
        rw [getArc_alloc]
        rfl
    | none =>
      rw [henv] at h
      dsimp at h
      rw [Prod.mk.injEq] at h
      obtain ⟨hid, hst⟩ := h
      cases hid
      refine ⟨st.native.nextPtr, ?_, ?_, ?_⟩
      · simp [createEnvWithCustomLogger, status_to_result, henv]
      · rw [← hst]
        unfold Environment.env_ptr
        rw [getArc_alloc]
        rfl
      · rw [← hst]
        unfold Environment.name
        rw [getArc_alloc]
        rfl

/-- Claim C7 witness: a concrete successful first build from the initial
process state yields handle 0 holding native pointer 1 and the default
name. -/
theorem c7_build_witness :
    ∃ p, (createEnvWithCustomLogger LoggingLevel.Warning "default" none
            NativeEnvState.init).1 = Except.ok p
      ∧ Environment.env_ptr (EnvBuilder.build Environment.builder none ProcState.init).2 0 = some p
      ∧ Environment.name (EnvBuilder.build Environment.builder none ProcState.init).2 0
          = some "default" :=
  (c7_build_error_and_success Environment.builder ProcState.init 0).2 0
    (EnvBuilder.build Environment.builder none ProcState.init).2 rfl

/-- Claim C10: the builder starts from name `"default"` and log level
`Warning`; each setter overwrites the stored value, so the last call
wins; and `build` consumes exactly the builder's current name and log
level. -/
theorem c10_builder_defaults_last_wins :
    Environment.builder.name = "default"
    ∧ Environment.builder.log_level = LoggingLevel.Warning
    ∧ (∀ (b : EnvBuilder) (n1 n2 : String), ((b.with_name n1).with_name n2).name = n2)
    ∧ (∀ (b : EnvBuilder) (l1 l2 : LoggingLevel),
        ((b.with_log_level l1).with_log_level l2).log_level = l2)
    ∧ (∀ (b : EnvBuilder) (status : OrtStatus) (st : ProcState),
        EnvBuilder.build b status st = Environment.new b.name b.log_level status st) :=
  ⟨rfl, rfl, fun _ _ _ => rfl, fun _ _ _ => rfl, fun _ _ _ => rfl⟩

/-! ## Claim theorems: output tensor adapter -/

/-- A native oracle on which every value is a tensor and the data pointer
is 100. -/
def apiHappy : OrtApi :=
  { isTensor := fun _ => (none, 1), getTensorMutableData := fun _ => (none, 100) }

/-- A native oracle whose data-access entry point fails with status 7. -/
def apiDataErr : OrtApi :=
  { isTensor := fun _ => (none, 1), getTensorMutableData := fun _ => (some 7, 0) }

/-- A native oracle whose data-access entry point succeeds but hands back
a null data pointer. -/
def apiDataNull : OrtApi :=
  { isTensor := fun _ => (none, 1), getTensorMutableData := fun _ => (none, 0) }

/-- Claim C4: whenever the flat view is built successfully its length is
the product of the shape's dimensions, the empty shape gives length 1,
the shape `[1,1,28,28]` gives length 784, and the multi-dimensional view
is keyed by exactly the tensor's shape. -/
theorem c4_view_element_count (api : OrtApi) (value : OrtOutputTensor) :
    (∀ w, tryFromSlice api value = RustResult.ok w → w.item.len = value.shape.prod)
    ∧ (∀ w, value.shape = [] → tryFromSlice api value = RustResult.ok w →
        w.item.len = 1)
    ∧ (∀ w, value.shape = [1, 1, 28, 28] → tryFromSlice api value = RustResult.ok w →
        w.item.len = 784)
    ∧ (∀ w, tryFromArrayView api value = RustResult.ok w → w.item.shape = value.shape) := by
  have hfold : value.shape.foldl (fun acc el => acc * el) 1 = value.shape.prod :=
    (List.prod_eq_foldl).symm
  have hslice : ∀ w, tryFromSlice api value = RustResult.ok w →
      w.item.len = value.shape.prod := by
    intro w h
    unfold tryFromSlice at h
    rcases hr : api.getTensorMutableData value.tensor_ptr with ⟨s, d⟩
    rw [hr] at h
    cases s with
    | some e => simp [status_to_result] at h
    | none =>
      by_cases hd : d = 0
      · simp [status_to_result, hd] at h
      · simp [status_to_result, hd] at h
        rw [← h]
        exact hfold
  refine ⟨hslice, ?_, ?_, ?_⟩
  · intro w hs h
    rw [hslice w h, hs]
    rfl
  · intro w hs h
    rw [hslice w h, hs]
    rfl
  · intro w h
    unfold tryFromArrayView at h
    rcases hr : api.getTensorMutableData value.tensor_ptr with ⟨s, d⟩
    rw [hr] at h
    cases s with
    | some e => simp [status_to_result] at h
    | none =>
      by_cases hd : d = 0
      · simp [status_to_result, hd] at h
      · simp [status_to_result, hd] at h
        rw [← h]

/-- Claim C4 witness: on the happy oracle, the tensor of shape
`[1,1,28,28]` yields the flat view of length 784 = prod, a scalar tensor
of shape `[]` yields length 1, and the array view is keyed by the
shape. -/
theorem c4_view_element_count_witness :
    (WithOutputTensor.item (T := SliceView) ⟨⟨1, [1, 1, 28, 28]⟩, ⟨100, 784⟩⟩).len
        = ([1, 1, 28, 28] : List Nat).prod
    ∧ (WithOutputTensor.item (T := SliceView) ⟨⟨1, []⟩, ⟨100, 1⟩⟩).len = 1
    ∧ (WithOutputTensor.item (T := ArrayViewD) ⟨⟨1, [1, 1, 28, 28]⟩,
        ⟨[1, 1, 28, 28], 100⟩⟩).shape = [1, 1, 28, 28] :=
  ⟨(c4_view_element_count apiHappy ⟨1, [1, 1, 28, 28]⟩).1 ⟨⟨1, [1, 1, 28, 28]⟩, ⟨100, 784⟩⟩ rfl,
   (c4_view_element_count apiHappy ⟨1, []⟩).2.1 ⟨⟨1, []⟩, ⟨100, 1⟩⟩ rfl rfl,
   (c4_view_element_count apiHappy ⟨1, [1, 1, 28, 28]⟩).2.2.2
     ⟨⟨1, [1, 1, 28, 28]⟩, ⟨[1, 1, 28, 28], 100⟩⟩ rfl⟩

/-- Claim C5 counterexample: when the native get-mutable-data call fails
with status 7 on the tensor `(ptr 1, shape [2])`, the view constructor
returns `OrtError::IsTensor 7` — a tensor-predicate-kind error, not one
of the data-access kind the claim requires — and when the call succeeds
but hands back a null pointer the code panics on `assert_ne!` instead of
returning a typed error. -/
theorem c5_error_kind_counterexample :
    tryFromSlice apiDataErr ⟨1, [2]⟩ = RustResult.err (OrtError.IsTensor 7)
    ∧ (OrtError.IsTensor 7).isDataAccess = false
    ∧ tryFromSlice apiDataNull ⟨1, [2]⟩ = RustResult.panicked :=
  ⟨rfl, rfl, rfl⟩

/-- Claim C5 (amended): obtaining a view fails exactly when the native
get-mutable-data call errors or returns a null pointer, but a native
error is surfaced as the typed error `OrtError::IsTensor` (the
tensor-predicate kind, via the code's own `map_err`), and a null pointer
makes the code panic on `assert_ne!` rather than return a typed error;
only a successful call with a non-null pointer yields a view. -/
theorem c5_data_access_failure (api : OrtApi) (value : OrtOutputTensor) (e p : Nat) :
    (api.getTensorMutableData value.tensor_ptr = (some e, p) →
      tryFromSlice api value = RustResult.err (OrtError.IsTensor e)
      ∧ tryFromArrayView api value = RustResult.err (OrtError.IsTensor e))
    ∧ (api.getTensorMutableData value.tensor_ptr = (none, 0) →
      tryFromSlice api value = RustResult.panicked
      ∧ tryFromArrayView api value = RustResult.panicked)
    ∧ (api.getTensorMutableData value.tensor_ptr = (none, p) → p ≠ 0 →
      (∃ w, tryFromSlice api value = RustResult.ok w)
      ∧ ∃ w, tryFromArrayView api value = RustResult.ok w) := by
  refine ⟨?_, ?_, ?_⟩
  · intro h
    constructor
    · unfold tryFromSlice
      rw [h]
      rfl
    · unfold tryFromArrayView
      rw [h]
      rfl

  · intro h
    constructor
    · unfold tryFromSlice
      rw [h]
      rfl
    · unfold tryFromArrayView
      rw [h]
      rfl

  · intro h hp
    constructor
    · refine ⟨⟨value, ⟨p, value.shape.foldl (fun acc el => acc * el) 1⟩⟩, ?_⟩
      unfold tryFromSlice
      rw [h]
      simp [status_to_result, hp]
    · refine ⟨⟨value, ⟨value.shape, p⟩⟩, ?_⟩
      unfold tryFromArrayView
      rw [h]
      simp [status_to_result, hp]

/-- Claim C5 witness: the amended characterisation applied on the
concrete failing oracle and on the happy oracle. -/
theorem c5_data_access_failure_witness :
    tryFromArrayView apiDataErr ⟨1, [2]⟩ = RustResult.err (OrtError.IsTensor 7)
    ∧ tryFromArrayView apiDataNull ⟨1, [2]⟩ = RustResult.panicked
    ∧ ∃ w, tryFromArrayView apiHappy ⟨1, [2]⟩ = RustResult.ok w :=
  ⟨((c5_data_access_failure apiDataErr ⟨1, [2]⟩ 7 0).1 rfl).2,
   ((c5_data_access_failure apiDataNull ⟨1, [2]⟩ 0 0).2.1 rfl).2,
   ((c5_data_access_failure apiHappy ⟨1, [2]⟩ 0 100).2.2 rfl (by decide)).2⟩

/-- Claim C6: for a non-null value pointer, validation fails with
`OrtError::IsTensor` when the native is-tensor query itself errors, fails
with the distinct `OrtError::IsTensorCheck` when the query succeeds but
answers other than 1, and only on a positive answer returns an
`OrtOutputTensor` carrying the given pointer and shape. -/
theorem c6_validate_distinguishes (api : OrtApi) (ptr : Nat) (shape : List Nat)
    (e a : Nat) (hp : ptr ≠ 0) :
    (api.isTensor ptr = (some e, a) →
      OrtOwnedTensorExtractor.extract api ⟨ptr, shape⟩
        = RustResult.err (OrtError.IsTensor e))
    ∧ (api.isTensor ptr = (none, a) → a ≠ 1 →
      OrtOwnedTensorExtractor.extract api ⟨ptr, shape⟩
        = RustResult.err OrtError.IsTensorCheck)
    ∧ (api.isTensor ptr = (none, 1) →
      OrtOwnedTensorExtractor.extract api ⟨ptr, shape⟩
        = RustResult.ok ⟨ptr, shape⟩) := by
  refine ⟨?_, ?_, ?_⟩
  · intro h
    unfold OrtOwnedTensorExtractor.extract
    simp only [hp, if_false]
    rw [h]
    rfl
  · intro h ha
    unfold OrtOwnedTensorExtractor.extract
    simp only [hp, if_false]
    rw [h]
    simp [status_to_result, ha]
  · intro h
    unfold OrtOwnedTensorExtractor.extract
    simp only [hp, if_false]
    rw [h]
    rfl

/-- Claim C6 witness: on the happy oracle the tensor at pointer 5 with
shape `[2, 3]` validates to the output tensor with the same pointer and
shape. -/
theorem c6_validate_distinguishes_witness :
    OrtOwnedTensorExtractor.extract apiHappy ⟨5, [2, 3]⟩
      = RustResult.ok ⟨5, [2, 3]⟩ :=
  (c6_validate_distinguishes apiHappy 5 [2, 3] 0 1 (by decide)).2.2 rfl

/-- Claim C9: validation is a pure function of the handle, the shape and
the native oracle — running it twice on the same inputs yields the same
result — and a successful validation returns the pointer and shape
unchanged, so re-validating the produced tensor succeeds with the very
same tensor. -/
theorem c9_validate_idempotent (api : OrtApi) (ptr : Nat) (shape : List Nat) :
    OrtOwnedTensorExtractor.extract api ⟨ptr, shape⟩
      = OrtOwnedTensorExtractor.extract api ⟨ptr, shape⟩
    ∧ ∀ t, OrtOwnedTensorExtractor.extract api ⟨ptr, shape⟩ = RustResult.ok t →
        t.tensor_ptr = ptr ∧ t.shape = shape
        ∧ OrtOwnedTensorExtractor.extract api ⟨t.tensor_ptr, t.shape⟩
            = RustResult.ok t := by
  constructor
  · rfl
  · intro t h
    unfold OrtOwnedTensorExtractor.extract at h ⊢
    by_cases hp : ptr = 0
    · simp [hp] at h
    · simp only [hp, if_false] at h ⊢
      rcases hr : api.isTensor ptr with ⟨s, a⟩
      rw [hr] at h
      cases s with
      | some e => simp [status_to_result] at h
      | none =>
        by_cases ha : a = 1
        · simp [status_to_result, ha] at h
          rw [← h]
          refine ⟨rfl, rfl, ?_⟩
          simp only [hp, if_false]
          rw [hr]
          simp [status_to_result, ha]
        · simp [status_to_result, ha] at h

/-- Claim C9 witness: on the happy oracle, validating pointer 7 with
shape `[4]` returns that pointer and shape, and re-validating the result
gives the same tensor. -/
theorem c9_validate_idempotent_witness :
    (OrtOutputTensor.tensor_ptr ⟨7, [4]⟩) = 7
    ∧ (OrtOutputTensor.shape ⟨7, [4]⟩) = [4]
    ∧ OrtOwnedTensorExtractor.extract apiHappy
        ⟨OrtOutputTensor.tensor_ptr ⟨7, [4]⟩, OrtOutputTensor.shape ⟨7, [4]⟩⟩
      = RustResult.ok ⟨7, [4]⟩ :=
  (c9_validate_idempotent apiHappy 7 [4]).2 ⟨7, [4]⟩ rfl

end Onnx
